import Mathlib

/-!
Verification of the match-line parsing core of the NCAA wrestling
fantasy-draft tracker (`ncaa_wrestling_tracker/parsers/match_parser.py`).

The Python module works by applying `re.search` with four concrete
patterns (a placement-detection pattern, a full placement-match pattern,
a primary regular-match pattern with a permissive backup, and a seed
pattern) and then assembling a result dictionary.  We embed a small
backtracking regular-expression engine faithful to Python `re` semantics
for the constructs those patterns use (literals, character classes,
left-preferring alternation, lazy and greedy stars over character
classes, an optional group, and numbered capture groups; `re.search`
tries candidate start positions left to right), instantiate it with the
exact patterns of the source, and translate the parsing functions
definition by definition.  Diagnostics (`log_debug` / `log_problem`)
are modelled as an explicitly returned list of log entries, and the
`config.PROBLEM_WRESTLERS` watchlist (whose contents are not part of
the parsing core) is passed as an explicit parameter; neither affects
the parsed result, only the emitted log entries.
-/

namespace NCAA

/-- Python's default whitespace set for `str.strip` and the regex class
`\s` (space, tab, newline, carriage return, vertical tab, form feed). -/
def pyIsSpace (c : Char) : Bool :=
  c = ' ' || c = '\t' || c = '\n' || c = '\r' || c = '\x0b' || c = '\x0c'

/-- `listHasPre pat s` holds when `pat` occurs at the very front of `s`. -/
def listHasPre : List Char → List Char → Bool
  | [], _ => true
  | _ :: _, [] => false
  | c :: cs, d :: ds => c = d && listHasPre cs ds

/-- `listHasSub pat s` holds when `pat` occurs contiguously anywhere in
`s`: the embedding of Python's substring test `pat in s`. -/
def listHasSub (pat : List Char) : List Char → Bool
  | [] => listHasPre pat []
  | s@(_ :: rest) => listHasPre pat s || listHasSub pat rest

/-- Python's case-sensitive substring test `pat in s`. -/
def strContains (s pat : String) : Bool :=
  listHasSub pat.toList s.toList

/-- Python's `s.startswith(pat)`. -/
def strStarts (s pat : String) : Bool :=
  listHasPre pat.toList s.toList

/-- Python's `str.strip()` with no argument: drop leading and trailing
whitespace. -/
def pyStrip (s : String) : String :=
  ⟨((s.toList.dropWhile pyIsSpace).reverse.dropWhile pyIsSpace).reverse⟩

/-- Python's `str.lower()` (character-wise lowering suffices for the
ASCII names and phrases the parser handles). -/
def pyLower (s : String) : String :=
  ⟨s.toList.map Char.toLower⟩

/-- Python's `int()` on a string of decimal digits. -/
def pyInt (s : String) : Nat :=
  s.toList.foldl (fun a c => 10 * a + (c.toNat - 48)) 0

/-! ### A backtracking regular-expression engine

Exactly the fragment of Python `re` used by `match_parser.py`.  Stars
only ever range over single-character classes in those patterns, which
keeps the engine first-order: a star backtracks over how many
characters it consumes. -/

/-- Regular expressions of the fragment used by the source: literals,
one-character classes, alternation (left branch preferred), sequencing,
lazy star `c*?`, greedy star `c*`, greedy option `(?:r)?`, and numbered
capture groups. -/
inductive RE where
  | lit (cs : List Char)
  | cls (p : Char → Bool)
  | alt (r₁ r₂ : RE)
  | seq (r₁ r₂ : RE)
  | starL (p : Char → Bool)
  | starG (p : Char → Bool)
  | opt (r : RE)
  | group (i : Nat) (r : RE)

/-- Captured groups: group number paired with captured characters.  A
group absent from the list was not matched (Python's `None`). -/
abbrev Groups := List (Nat × List Char)

/-- Strip a literal from the front of the input, or fail. -/
def stripLit : List Char → List Char → Option (List Char)
  | [], s => some s
  | _ :: _, [] => none
  | c :: cs, d :: ds => if c = d then stripLit cs ds else none

/-- Lazy star over a character class: first try the continuation at the
current position, then consume one more matching character and retry. -/
def starLoopL (p : Char → Bool) :
    List Char → Groups → (List Char → Groups → Option Groups) → Option Groups
  | s, g, k =>
    match k s g with
    | some r => some r
    | none =>
      match s with
      | [] => none
      | c :: rest => if p c then starLoopL p rest g k else none

/-- Greedy star over a character class: first consume as many matching
characters as possible, backtracking one character at a time. -/
def starLoopG (p : Char → Bool) :
    List Char → Groups → (List Char → Groups → Option Groups) → Option Groups
  | s, g, k =>
    match s with
    | [] => k [] g
    | c :: rest =>
      if p c then
        match starLoopG p rest g k with
        | some r => some r
        | none => k s g
      else k s g

/-- The backtracking matcher, in continuation-passing style.  The
continuation receives the unconsumed input and the groups captured so
far; alternatives are tried in Python's preference order. -/
def matchRE : RE → List Char → Groups → (List Char → Groups → Option Groups) → Option Groups
  | .lit cs, s, g, k =>
    match stripLit cs s with
    | some s' => k s' g
    | none => none
  | .cls p, s, g, k =>
    match s with
    | [] => none
    | c :: rest => if p c then k rest g else none
  | .alt r₁ r₂, s, g, k =>
    match matchRE r₁ s g k with
    | some r => some r
    | none => matchRE r₂ s g k
  | .seq r₁ r₂, s, g, k =>
    matchRE r₁ s g (fun s' g' => matchRE r₂ s' g' k)
  | .starL p, s, g, k => starLoopL p s g k
  | .starG p, s, g, k => starLoopG p s g k
  | .opt r, s, g, k =>
    match matchRE r s g k with
    | some res => some res
    | none => k s g
  | .group i r, s, g, k =>
    matchRE r s g (fun s' g' => k s' ((i, s.take (s.length - s'.length)) :: g'))

/-- Try to match at the current position, else advance one character:
the leftmost-match rule of `re.search`. -/
def searchFrom (r : RE) (s : List Char) : Option Groups :=
  match matchRE r s [] (fun _ g => some g) with
  | some g => some g
  | none =>
    match s with
    | [] => none
    | _ :: rest => searchFrom r rest

/-- The embedding of `re.search(r, s)`, returning the captured groups of
the leftmost match, or `none` when the pattern matches nowhere. -/
def reSearch (r : RE) (s : String) : Option Groups :=
  searchFrom r s.toList

/-- `match.group(i)` for a mandatory group (Python returns a string). -/
def grp (g : Groups) (i : Nat) : String :=
  ⟨(g.lookup i).getD []⟩

/-- The class matched by `.` (any character but newline). -/
def dotCls (c : Char) : Bool := c ≠ '\n'

/-- The class matched by `\d`. -/
def digitCls (c : Char) : Bool := c.isDigit

/-- Concatenate a list of regular expressions. -/
def rcat (l : List RE) : RE := l.foldr RE.seq (.lit [])

/-- Shorthand for a literal. -/
def rlit (s : String) : RE := .lit s.toList

/-- Greedy `\d+`. -/
def rdigits : RE := .seq (.cls digitCls) (.starG digitCls)

/-- Greedy `\s+`. -/
def rspaces : RE := .seq (.cls pyIsSpace) (.starG pyIsSpace)

/-- The alternation `1st|2nd|3rd|4th|5th|6th|7th|8th`. -/
def ordinalAlt : RE :=
  .alt (rlit "1st") (.alt (rlit "2nd") (.alt (rlit "3rd") (.alt (rlit "4th")
    (.alt (rlit "5th") (.alt (rlit "6th") (.alt (rlit "7th") (rlit "8th")))))))

/-- The placement-detection pattern
`(1st|2nd|3rd|4th|5th|6th|7th|8th) Place Match`. -/
def placement_pattern : RE :=
  rcat [.group 1 ordinalAlt, rlit " Place Match"]

/-- The full placement pattern
`(1st|...|8th) Place Match - (.*?) \((.*?)\)(.*?)won (by|in) (.*?) over (.*?) \((.*?)\)(.*)`. -/
def placement_pattern_full : RE :=
  rcat [.group 1 ordinalAlt, rlit " Place Match - ",
    .group 2 (.starL dotCls), rlit " (",
    .group 3 (.starL dotCls), rlit ")",
    .group 4 (.starL dotCls), rlit "won ",
    .group 5 (.alt (rlit "by") (rlit "in")), rlit " ",
    .group 6 (.starL dotCls), rlit " over ",
    .group 7 (.starL dotCls), rlit " (",
    .group 8 (.starL dotCls), rlit ")",
    .group 9 (.starG dotCls)]

/-- The primary regular-match pattern
`(Champ|Cons)\. Round (\d+) - (.*?) \((.*?)\)(.*?)won (by|in) (.*?) over (.*?) \((.*?)\)(.*)`. -/
def pattern : RE :=
  rcat [.group 1 (.alt (rlit "Champ") (rlit "Cons")), rlit ". Round ",
    .group 2 rdigits, rlit " - ",
    .group 3 (.starL dotCls), rlit " (",
    .group 4 (.starL dotCls), rlit ")",
    .group 5 (.starL dotCls), rlit "won ",
    .group 6 (.alt (rlit "by") (rlit "in")), rlit " ",
    .group 7 (.starL dotCls), rlit " over ",
    .group 8 (.starL dotCls), rlit " (",
    .group 9 (.starL dotCls), rlit ")",
    .group 10 (.starG dotCls)]

/-- The permissive backup pattern
`(Champ|Cons)\. Round (\d+) - (.*?) \((.*?)\)(.*?)won.* over (.*?) \((.*?)\)(.*)`. -/
def backup_pattern : RE :=
  rcat [.group 1 (.alt (rlit "Champ") (rlit "Cons")), rlit ". Round ",
    .group 2 rdigits, rlit " - ",
    .group 3 (.starL dotCls), rlit " (",
    .group 4 (.starL dotCls), rlit ")",
    .group 5 (.starL dotCls), rlit "won",
    .starG dotCls, rlit " over ",
    .group 6 (.starL dotCls), rlit " (",
    .group 7 (.starL dotCls), rlit ")",
    .group 8 (.starG dotCls)]

/-- The seed pattern `\(.*?\)\s+(\d+)-\d+\s+(?:\(#(\d+)\))?`. -/
def seed_pattern : RE :=
  rcat [rlit "(", .starL dotCls, rlit ")", rspaces,
    .group 1 rdigits, rlit "-", rdigits, rspaces,
    .opt (rcat [rlit "(#", .group 2 rdigits, rlit ")"])]

/-! ### The data model

The Python parser returns one of two dictionary shapes (placement and
regular), or `None`.  Each shape becomes a structure; the
`is_placement_match` key becomes the constructor of `MatchInfo`.
Point values are rationals (`1.0`, `0.5`, `1.5`, ... in the source). -/

/-- The dictionary returned by `_parse_placement_match`. -/
structure PlacementInfo where
  placement_match : String
  winner_name : String
  winner_school : String
  winner_placement : Option Nat
  loser_name : String
  loser_school : String
  loser_placement : Option Nat
  weight : Option String
  win_type : String
  win_type_full : String
  advancement_points : ℚ
  bonus_points : ℚ
  total_points : ℚ
  match_text : String
deriving DecidableEq, Repr, Inhabited

/-- The dictionary returned by `_parse_regular_match`. -/
structure RegularInfo where
  bracket : String
  round_num : Nat
  full_round : String
  winner_name : String
  winner_school : String
  winner_seed : Option String
  winner_seed_num : Option Nat
  weight : Option String
  loser_name : String
  loser_school : String
  win_type : String
  win_type_full : String
  advancement_points : ℚ
  bonus_points : ℚ
  total_points : ℚ
  match_text : String
deriving DecidableEq, Repr, Inhabited

/-- A parsed match: the two dictionary shapes of the source
(`is_placement_match` true / false). -/
inductive MatchInfo where
  | placement (p : PlacementInfo)
  | regular (r : RegularInfo)
deriving DecidableEq, Repr, Inhabited

/-- The win type recorded in a parsed match. -/
def MatchInfo.winTypeOf : MatchInfo → String
  | .placement p => p.win_type
  | .regular r => r.win_type

/-- Project the placement record out of a parsed match. -/
def MatchInfo.asPlacement : MatchInfo → PlacementInfo
  | .placement p => p
  | .regular _ => default

/-- Project the regular record out of a parsed match. -/
def MatchInfo.asRegular : MatchInfo → RegularInfo
  | .regular r => r
  | .placement _ => default

/-- Modelled from the spec: diagnostics emitted through
`utils.logging_utils.log_debug` / `log_problem` (whose module is not
part of the parsing core's sources) are collected into an explicit
return-value accumulator, one entry per call, tagged by channel. -/
inductive LogEntry where
  | debug (msg : String)
  | problem (msg : String)
deriving DecidableEq, Repr

/-! ### The parser, translated from `match_parser.py` -/

/-- `_parse_win_type(win_type_full, match_text)`: the win-type
classifier, an if/elif chain of case-sensitive substring tests on the
phrase, with a final fallback that re-scans the full line for
sudden-victory / tie-breaker markers. -/
def _parse_win_type (win_type_full match_text : String) : String × ℚ :=
  if strContains win_type_full "tech fall" then ("TF", 3/2)
  else if strContains win_type_full "major decision" then ("MD", 1)
  else if (strContains win_type_full "fall" || strContains win_type_full "pin")
      && !strContains win_type_full "tech fall" then ("Fall", 2)
  else if strContains win_type_full "default" || strContains win_type_full "forfeit"
      || strContains win_type_full "disqualification"
      || strContains win_type_full "misconduct" then ("Def/DQ", 2)
  else if strContains win_type_full "sudden victory"
      || strStarts win_type_full "sudden victory" then ("SV", 0)
  else if strContains win_type_full "tie breaker"
      || strStarts win_type_full "tie breaker" then ("TB", 0)
  else if strContains win_type_full "decision" then ("Dec", 0)
  else if strContains match_text "sudden victory" || strContains match_text " SV-1 "
      || strContains match_text " SV-2 " || strContains match_text "(SV-1" then ("SV", 0)
  else if strContains match_text "tie breaker" || strContains match_text " TB-1 "
      || strContains match_text " TB-2 " || strContains match_text "(TB-1" then ("TB", 0)
  else ("Other", 0)

/-- `_parse_placement_match(match_text, current_weight)`: match the full
placement pattern; on failure log and return `None`; on success map the
ordinal to the fixed winner/loser placement pair (1st→(1,2), 3rd→(3,4),
5th→(5,6), 7th→(7,8), otherwise unknown) and build the placement
dictionary with `advancement_points = 0` and
`total_points = bonus_points`. -/
def _parse_placement_match (match_text : String) (current_weight : Option String) :
    Option MatchInfo × List LogEntry :=
  match reSearch placement_pattern_full match_text with
  | none => (none, [.debug ("Failed to parse placement match: " ++ match_text)])
  | some m =>
    let placement := grp m 1
    let winner_name := pyStrip (grp m 2)
    let winner_school := pyStrip (grp m 3)
    let win_type_full := pyStrip (grp m 6)
    let loser_name := pyStrip (grp m 7)
    let loser_school := pyStrip (grp m 8)
    let placements : Option Nat × Option Nat :=
      if placement = "1st" then (some 1, some 2)
      else if placement = "3rd" then (some 3, some 4)
      else if placement = "5th" then (some 5, some 6)
      else if placement = "7th" then (some 7, some 8)
      else (none, none)
    let wt := _parse_win_type win_type_full match_text
    (some (.placement {
        placement_match := placement
        winner_name := winner_name
        winner_school := winner_school
        winner_placement := placements.1
        loser_name := loser_name
        loser_school := loser_school
        loser_placement := placements.2
        weight := current_weight
        win_type := wt.1
        win_type_full := win_type_full
        advancement_points := 0
        bonus_points := wt.2
        total_points := wt.2
        match_text := match_text }), [])

/-- The common tail of `_parse_regular_match` after either the primary
or the backup pattern has supplied the captured fields: seed
extraction, advancement points fixed by bracket, win-type
classification, the `(SV-1` / `(TB-1` override, and assembly of the
regular dictionary. -/
def _regular_build (match_text : String) (current_weight : Option String)
    (logs₀ : List LogEntry)
    (bracket round_str winner_name winner_school win_type_full loser_name loser_school : String) :
    Option MatchInfo × List LogEntry :=
  let seed : Option String × Option Nat :=
    match reSearch seed_pattern match_text with
    | some sm =>
      if (sm.lookup 2).getD [] ≠ [] then
        (some ("#" ++ grp sm 2), some (pyInt (grp sm 2)))
      else (none, none)
    | none => (none, none)
  let full_round := bracket ++ " R" ++ round_str
  let advancement_points : ℚ := if bracket = "Champ" then 1 else 1/2
  let wt := _parse_win_type win_type_full match_text
  let over : String × String × List LogEntry :=
    if strContains match_text "(SV-1" then
      ("SV", "sudden victory", [.problem ("SV-1 pattern detected: " ++ match_text)])
    else if strContains match_text "(TB-1" then
      ("TB", "tie breaker", [.problem ("TB-1 pattern detected: " ++ match_text)])
    else (wt.1, win_type_full, [])
  let win_type := over.1
  let total_points := advancement_points + wt.2
  let logs₂ : List LogEntry :=
    if win_type = "SV" || win_type = "TB" then
      [.problem ("Detected " ++ win_type ++ " match: " ++ match_text)]
    else []
  (some (.regular {
      bracket := bracket
      round_num := pyInt round_str
      full_round := full_round
      winner_name := winner_name
      winner_school := winner_school
      winner_seed := seed.1
      winner_seed_num := seed.2
      weight := current_weight
      loser_name := loser_name
      loser_school := loser_school
      win_type := win_type
      win_type_full := over.2.1
      advancement_points := advancement_points
      bonus_points := wt.2
      total_points := total_points
      match_text := match_text }), logs₀ ++ over.2.2 ++ logs₂)

/-- `_parse_regular_match(match_text, current_weight)`: try the primary
pattern; on failure retry with the permissive backup pattern (logging
its use, and defaulting the win phrase to `"decision"`); if both fail,
log and return `None`. -/
def _parse_regular_match (match_text : String) (current_weight : Option String) :
    Option MatchInfo × List LogEntry :=
  match reSearch pattern match_text with
  | some m =>
    _regular_build match_text current_weight []
      (grp m 1) (grp m 2) (pyStrip (grp m 3)) (pyStrip (grp m 4))
      (pyStrip (grp m 7)) (pyStrip (grp m 8)) (pyStrip (grp m 9))
  | none =>
    match reSearch backup_pattern match_text with
    | some bm =>
      _regular_build match_text current_weight
        [.debug ("Parsed with backup pattern: " ++ match_text)]
        (grp bm 1) (grp bm 2) (pyStrip (grp bm 3)) (pyStrip (grp bm 4))
        "decision" (pyStrip (grp bm 6)) (pyStrip (grp bm 7))
    | none =>
      (none, [.debug ("Failed to parse with all patterns: " ++ match_text)])

/-- `parse_match_result(match_text, current_weight)`: the entry point.
Logs any problem-wrestler sighting (the watchlist
`config.PROBLEM_WRESTLERS` is passed explicitly, see the module
comment), then dispatches on the placement-detection pattern to the
placement or regular parser. -/
def parse_match_result (problem_wrestlers : List String)
    (match_text : String) (current_weight : Option String) :
    Option MatchInfo × List LogEntry :=
  let pwLogs : List LogEntry := problem_wrestlers.filterMap fun w =>
    if strContains (pyLower match_text) (pyLower w) then
      some (.problem ("Found problem wrestler match: " ++ match_text))
    else none
  let is_placement_match := (reSearch placement_pattern match_text).isSome
  let detLogs : List LogEntry :=
    if is_placement_match then [.debug ("Found placement match: " ++ match_text)] else []
  let res :=
    if is_placement_match then _parse_placement_match match_text current_weight
    else _parse_regular_match match_text current_weight
  (res.1, pwLogs ++ detLogs ++ res.2)

/-! ### Specification-side definitions

`winTypeSpec` is written from the specification's words (the
classification table of §4.1 / claim C2), to be compared with the
translated `_parse_win_type`. -/

/-- The win-type classification table as the specification states it:
checked in priority order, first match wins; the final fallback
re-scans the full line for the sudden-victory / tie-breaker markers
(`"sudden victory"`, `" SV-1 "`, `" SV-2 "`, `"(SV-1"`, and the
tie-breaker counterparts) and otherwise classifies as Other with bonus
0.0. -/
def winTypeSpec (phrase line : String) : String × ℚ :=
  if strContains phrase "tech fall" then ("TF", 3/2)
  else if strContains phrase "major decision" then ("MD", 1)
  else if (strContains phrase "fall" || strContains phrase "pin")
      && !strContains phrase "tech fall" then ("Fall", 2)
  else if strContains phrase "default" || strContains phrase "forfeit"
      || strContains phrase "disqualification" || strContains phrase "misconduct" then ("Def/DQ", 2)
  else if strContains phrase "sudden victory" then ("SV", 0)
  else if strContains phrase "tie breaker" then ("TB", 0)
  else if strContains phrase "decision" then ("Dec", 0)
  else if strContains line "sudden victory" || strContains line " SV-1 "
      || strContains line " SV-2 " || strContains line "(SV-1" then ("SV", 0)
  else if strContains line "tie breaker" || strContains line " TB-1 "
      || strContains line " TB-2 " || strContains line "(TB-1" then ("TB", 0)
  else ("Other", 0)

/-- The phrases tested by the classifier's table, in table order. -/
def tableEntries : List String :=
  ["tech fall", "major decision", "fall", "pin", "default", "forfeit",
   "disqualification", "misconduct", "sudden victory", "tie breaker", "decision"]

/-- A line free of every marker the classifier's final rescan looks
for. -/
def noMarkers (line : String) : Bool :=
  !strContains line "sudden victory" && !strContains line " SV-1 "
    && !strContains line " SV-2 " && !strContains line "(SV-1"
    && !strContains line "tie breaker" && !strContains line " TB-1 "
    && !strContains line " TB-2 " && !strContains line "(TB-1"

/-! ### Concrete lines and records used by the witnesses

The rational-valued point fields of a parsed record do not reduce in
the kernel (rational arithmetic normalizes through `Nat.gcd`), so the
witnesses never ask the kernel for them: each witness extracts the
parsed record through `Option.get`, whose proof obligation only forces
the option's constructor, and then reads off string-valued fields
(which do reduce) or facts supplied by the claim theorems. -/

/-- A regular championship-round line (Scenario A of the spec). -/
def lineA : String :=
  "Champ. Round 1 - John Smith (Iowa) won by decision over Mike Jones (Ohio State)"

/-- The parsed result of `lineA`. -/
def infoA : MatchInfo := ((parse_match_result [] lineA none).1).get (by decide)

/-- A first-place placement line (Scenario C of the spec). -/
def lineC : String :=
  "1st Place Match - John Smith (Iowa) won by major decision over Mike Jones (Ohio State)"

/-- The parsed result of `lineC`. -/
def infoC : MatchInfo := ((parse_match_result [] lineC none).1).get (by decide)

/-- A regular line with a `(SV-1` marker, for the C3 witness. -/
def lineD : String :=
  "Champ. Round 2 - John Smith (Iowa) won by decision over Mike Jones (Ohio State) (SV-1 3-1)"

/-- The parsed result of `lineD`. -/
def infoD : MatchInfo := ((parse_match_result [] lineD none).1).get (by decide)

/-- A line only the backup pattern matches, for the C5 witness. -/
def lineB5 : String := "Champ. Round 1 - A (Iowa) won over B (Ohio)"

/-- A fall described on a line only the backup pattern matches, for the
C8 witness. -/
def lineB8 : String := "Cons. Round 3 - C (PSU) won with a big fall over D (OSU)"

/-- A line the regular grammar would match but which carries a
placement marker, for the C9 witness. -/
def lineE : String := "Champ. Round 1 - A (Iowa) won by fall over B (Ohio) 3rd Place Match"

/-! ### Helper lemmas -/

/-- A pattern occurring at the front of a list occurs in it. -/
theorem listHasPre_imp_sub (p s : List Char) (h : listHasPre p s = true) :
    listHasSub p s = true := by
  cases s with
  | nil => simpa [listHasSub] using h
  | cons c rest => simp [listHasSub, h]

/-- `startswith` implies the substring test. -/
theorem strStarts_imp_contains (s p : String) (h : strStarts s p = true) :
    strContains s p = true :=
  listHasPre_imp_sub p.toList s.toList h

/-- The `or startswith` disjuncts in the classifier are redundant. -/
theorem contains_or_starts (s p : String) :
    (strContains s p || strStarts s p) = strContains s p := by
  cases h : strStarts s p
  · simp [h]
  · simp [h, strStarts_imp_contains s p h]

/-- The parsed result is the placement parse or the regular parse,
according to the placement-detection pattern. -/
theorem parse_fst (pw : List String) (t : String) (w : Option String) :
    (parse_match_result pw t w).1 =
      (if (reSearch placement_pattern t).isSome then (_parse_placement_match t w).1
       else (_parse_regular_match t w).1) := by
  cases h : (reSearch placement_pattern t).isSome <;>
    simp [parse_match_result, h]

/-- On a phrase equal to the literal `"decision"`, the classifier
returns Decision with bonus 0 whatever the full line says. -/
theorem win_type_decision (line : String) :
    _parse_win_type "decision" line = ("Dec", 0) := by
  have h1 : strContains "decision" "tech fall" = false := by decide
  have h2 : strContains "decision" "major decision" = false := by decide
  have h3 : strContains "decision" "fall" = false := by decide
  have h4 : strContains "decision" "pin" = false := by decide
  have h5 : strContains "decision" "default" = false := by decide
  have h6 : strContains "decision" "forfeit" = false := by decide
  have h7 : strContains "decision" "disqualification" = false := by decide
  have h8 : strContains "decision" "misconduct" = false := by decide
  have h9 : strContains "decision" "sudden victory" = false := by decide
  have h10 : strStarts "decision" "sudden victory" = false := by decide
  have h11 : strContains "decision" "tie breaker" = false := by decide
  have h12 : strStarts "decision" "tie breaker" = false := by decide
  have h13 : strContains "decision" "decision" = true := by decide
  simp [_parse_win_type, h1, h2, h3, h4, h5, h6, h7, h8, h9, h10, h11, h12, h13]

/-- Shape of a successful placement parse: the result is a placement
record with zero advancement points, total equal to bonus, and the
winner/loser placements given by the fixed ordinal rule. -/
theorem placement_shape (t : String) (w : Option String) (info : MatchInfo)
    (h : (_parse_placement_match t w).1 = some info) :
    ∃ p : PlacementInfo, info = .placement p ∧
      p.advancement_points = 0 ∧ p.total_points = p.bonus_points ∧
      p.winner_placement = (if p.placement_match = "1st" then some 1
        else if p.placement_match = "3rd" then some 3
        else if p.placement_match = "5th" then some 5
        else if p.placement_match = "7th" then some 7 else none) ∧
      p.loser_placement = (if p.placement_match = "1st" then some 2
        else if p.placement_match = "3rd" then some 4
        else if p.placement_match = "5th" then some 6
        else if p.placement_match = "7th" then some 8 else none) := by
  cases hm : reSearch placement_pattern_full t with
  | none => simp [_parse_placement_match, hm] at h
  | some m =>
    simp only [_parse_placement_match, hm, Option.some.injEq] at h
    refine ⟨_, h.symm, rfl, rfl, ?_, ?_⟩ <;>
      · dsimp only
        split_ifs <;> rfl

/-- Shape of the record assembled by the common tail of
`_parse_regular_match`: bracket and win phrase are the supplied
arguments, bonus comes from the classifier, total is advancement plus
bonus, advancement is fixed by the bracket, and the win type is the
classifier's answer unless the `(SV-1` / `(TB-1` override fires. -/
theorem build_shape (t : String) (w : Option String) (logs₀ : List LogEntry)
    (a b c d e f g₇ : String) (info : MatchInfo)
    (h : (_regular_build t w logs₀ a b c d e f g₇).1 = some info) :
    ∃ r : RegularInfo, info = .regular r ∧
      r.bracket = a ∧
      r.bonus_points = (_parse_win_type e t).2 ∧
      r.total_points = r.advancement_points + r.bonus_points ∧
      r.advancement_points = (if a = "Champ" then (1 : ℚ) else 1/2) ∧
      r.win_type = (if strContains t "(SV-1" then "SV"
        else if strContains t "(TB-1" then "TB" else (_parse_win_type e t).1) ∧
      r.win_type_full = (if strContains t "(SV-1" then "sudden victory"
        else if strContains t "(TB-1" then "tie breaker" else e) := by
  by_cases h1 : strContains t "(SV-1" = true
  · simp only [_regular_build, h1, if_true, Option.some.injEq] at h
    exact ⟨_, h.symm, rfl, rfl, rfl, rfl, by simp [h1], by simp [h1]⟩
  · by_cases h2 : strContains t "(TB-1" = true
    · simp only [_regular_build, h1, h2, if_true, if_false, Option.some.injEq] at h
      exact ⟨_, h.symm, rfl, rfl, rfl, rfl, by simp [h1, h2], by simp [h1, h2]⟩
    · simp only [_regular_build, h1, h2, if_true, if_false, Option.some.injEq] at h
      exact ⟨_, h.symm, rfl, rfl, rfl, rfl, by simp [h1, h2], by simp [h1, h2]⟩

/-- Shape of a successful regular parse, routed through either the
primary or the backup pattern. -/
theorem regular_shape (t : String) (w : Option String) (info : MatchInfo)
    (h : (_parse_regular_match t w).1 = some info) :
    ∃ r : RegularInfo, info = .regular r ∧
      r.total_points = r.advancement_points + r.bonus_points ∧
      r.advancement_points = (if r.bracket = "Champ" then (1 : ℚ) else 1/2) ∧
      (strContains t "(SV-1" = true → r.win_type = "SV") ∧
      (strContains t "(SV-1" = false → strContains t "(TB-1" = true → r.win_type = "TB") := by
  have build : ∀ logs₀ a b c d e f g₇,
      (_regular_build t w logs₀ a b c d e f g₇).1 = some info →
      ∃ r : RegularInfo, info = .regular r ∧
        r.total_points = r.advancement_points + r.bonus_points ∧
        r.advancement_points = (if r.bracket = "Champ" then (1 : ℚ) else 1/2) ∧
        (strContains t "(SV-1" = true → r.win_type = "SV") ∧
        (strContains t "(SV-1" = false → strContains t "(TB-1" = true → r.win_type = "TB") := by
    intro logs₀ a b c d e f g₇ hb
    obtain ⟨r, hinfo, hbr, _, htot, hadv, hwt, hwtf⟩ := build_shape t w logs₀ a b c d e f g₇ info hb
    refine ⟨r, hinfo, htot, ?_, ?_, ?_⟩
    · rw [hadv, hbr]
    · intro hsv; rw [hwt, hsv]; simp
    · intro hsv htb; rw [hwt, hsv, htb]; simp
  cases hm : reSearch pattern t with
  | some m =>
    rw [_parse_regular_match, hm] at h
    exact build _ _ _ _ _ _ _ _ h
  | none =>
    cases hb : reSearch backup_pattern t with
    | none => simp [_parse_regular_match, hm, hb] at h
    | some g =>
      rw [_parse_regular_match, hm, hb] at h
      exact build _ _ _ _ _ _ _ _ h

/-! ### The claims -/

/-- C1: every dictionary returned by `parse_match_result` satisfies
`total_points = advancement_points + bonus_points`; for non-placement
events `advancement_points` is 1.0 for the Championship bracket and 0.5
for the Consolation bracket, determined solely by the bracket; for
placement events `advancement_points = 0` and
`total_points = bonus_points`. -/
theorem claim1_total_points_invariant (pw : List String) (t : String) (w : Option String)
    (info : MatchInfo) (h : (parse_match_result pw t w).1 = some info) :
    (∀ p : PlacementInfo, info = .placement p →
      p.advancement_points = 0 ∧ p.total_points = p.bonus_points ∧
      p.total_points = p.advancement_points + p.bonus_points) ∧
    (∀ r : RegularInfo, info = .regular r →
      r.total_points = r.advancement_points + r.bonus_points ∧
      (r.bracket = "Champ" → r.advancement_points = 1) ∧
      (r.bracket = "Cons" → r.advancement_points = 1/2) ∧
      r.advancement_points = (if r.bracket = "Champ" then (1 : ℚ) else 1/2)) := by
  rw [parse_fst] at h
  by_cases hd : (reSearch placement_pattern t).isSome
  · rw [if_pos hd] at h
    obtain ⟨p, rfl, hadv, htot, _, _⟩ := placement_shape t w info h
    constructor
    · intro q hq
      obtain rfl : p = q := by injection hq
      refine ⟨hadv, htot, ?_⟩
      rw [hadv, zero_add]
      exact htot
    · intro r hr
      exact MatchInfo.noConfusion hr
  · rw [if_neg hd] at h
    obtain ⟨r, rfl, htot, hadv, _, _⟩ := regular_shape t w info h
    constructor
    · intro q hq
      exact MatchInfo.noConfusion hq
    · intro q hq
      obtain rfl : r = q := by injection hq
      refine ⟨htot, ?_, ?_, hadv⟩
      · intro hb
        rw [hadv, if_pos hb]
      · intro hb
        rw [hadv, hb, if_neg (by decide : ¬("Cons" : String) = "Champ")]
/-- Witness for C1 at the concrete line `lineA`. -/
theorem claim1_witness :
    (infoA.asRegular).total_points
        = (infoA.asRegular).advancement_points + (infoA.asRegular).bonus_points ∧
    (infoA.asRegular).advancement_points = 1 := by
  have h : (parse_match_result [] lineA none).1 = some (.regular infoA.asRegular) := by
    rw [show MatchInfo.regular infoA.asRegular = infoA from rfl]
    exact (Option.some_get (by decide)).symm
  have h2 := (claim1_total_points_invariant [] lineA none (.regular infoA.asRegular) h).2
    (infoA.asRegular) rfl
  exact ⟨h2.1, h2.2.1 (by decide)⟩

/-- C2: `_parse_win_type` agrees with the specification's priority
table (`winTypeSpec`, written from the spec's words) on every phrase
and line. -/
theorem claim2_win_type_table (phrase line : String) :
    _parse_win_type phrase line = winTypeSpec phrase line := by
  unfold _parse_win_type winTypeSpec
  rw [contains_or_starts phrase "sudden victory", contains_or_starts phrase "tie breaker"]

/-- C4: a successfully parsed placement line carries the winner/loser
placement pair fixed by the ordinal — 1st→(1,2), 3rd→(3,4), 5th→(5,6),
7th→(7,8) — and any other ordinal (2nd, 4th, 6th, 8th) leaves both
placements unknown while the event is still produced. -/
theorem claim4_placement_mapping (pw : List String) (t : String) (w : Option String)
    (p : PlacementInfo) (h : (parse_match_result pw t w).1 = some (.placement p)) :
    (p.placement_match = "1st" → p.winner_placement = some 1 ∧ p.loser_placement = some 2) ∧
    (p.placement_match = "3rd" → p.winner_placement = some 3 ∧ p.loser_placement = some 4) ∧
    (p.placement_match = "5th" → p.winner_placement = some 5 ∧ p.loser_placement = some 6) ∧
    (p.placement_match = "7th" → p.winner_placement = some 7 ∧ p.loser_placement = some 8) ∧
    (p.placement_match = "2nd" ∨ p.placement_match = "4th" ∨
        p.placement_match = "6th" ∨ p.placement_match = "8th" →
      p.winner_placement = none ∧ p.loser_placement = none) := by
  rw [parse_fst] at h
  by_cases hd : (reSearch placement_pattern t).isSome
  · rw [if_pos hd] at h
    obtain ⟨q, hq, _, _, hw, hl⟩ := placement_shape t w _ h
    obtain rfl : q = p := by injection hq with h'; exact h'.symm
    refine ⟨?_, ?_, ?_, ?_, ?_⟩
    · intro hc; rw [hw, hl, hc]; decide
    · intro hc; rw [hw, hl, hc]; decide
    · intro hc; rw [hw, hl, hc]; decide
    · intro hc; rw [hw, hl, hc]; decide
    · rintro (hc | hc | hc | hc) <;> rw [hw, hl, hc] <;> decide
  · rw [if_neg hd] at h
    obtain ⟨r, hr, _⟩ := regular_shape t w _ h
    exact MatchInfo.noConfusion hr
/-- Witness for C4 at the concrete line `lineC`. -/
theorem claim4_witness :
    (infoC.asPlacement).winner_placement = some 1 ∧
    (infoC.asPlacement).loser_placement = some 2 := by
  have h : (parse_match_result [] lineC none).1 = some (.placement infoC.asPlacement) := by
    rw [show MatchInfo.placement infoC.asPlacement = infoC from rfl]
    exact (Option.some_get (by decide)).symm
  exact (claim4_placement_mapping [] lineC none infoC.asPlacement h).1 (by decide)

/-- C7: `parse_match_result` is deterministic — identical match text
and weight yield identical results (parsed dictionary and
diagnostics). -/
theorem claim7_deterministic (pw : List String) (t₁ t₂ : String) (w₁ w₂ : Option String)
    (ht : t₁ = t₂) (hw : w₁ = w₂) :
    parse_match_result pw t₁ w₁ = parse_match_result pw t₂ w₂ := by
  rw [ht, hw]
/-- Witness for C7 at a concrete line. -/
theorem claim7_witness :
    parse_match_result [] "Champ. Round 1 - A (X) won by fall over B (Y)" none =
      parse_match_result [] "Champ. Round 1 - A (X) won by fall over B (Y)" none :=
  claim7_deterministic [] _ _ none none rfl rfl

/-- The common tail of the regular parser always yields a result. -/
theorem build_is_some (t : String) (w : Option String) (logs₀ : List LogEntry)
    (a b c d e f g₇ : String) :
    ∃ info, (_regular_build t w logs₀ a b c d e f g₇).1 = some info :=
  ⟨_, rfl⟩

/-- A successful match of the full placement pattern yields a result. -/
theorem placement_is_some (t : String) (w : Option String) (m : Groups)
    (hm : reSearch placement_pattern_full t = some m) :
    ∃ info, (_parse_placement_match t w).1 = some info := by
  cases hp : (_parse_placement_match t w).1 with
  | some i => exact ⟨i, rfl⟩
  | none => simp [_parse_placement_match, hm] at hp

/-- Log entries of the dispatched sub-parser survive into the log list
returned by `parse_match_result`. -/
theorem parse_logs_mem (pw : List String) (t : String) (w : Option String) (x : LogEntry)
    (h : x ∈ (if (reSearch placement_pattern t).isSome then _parse_placement_match t w
      else _parse_regular_match t w).2) :
    x ∈ (parse_match_result pw t w).2 := by
  simp only [parse_match_result, List.mem_append]
  tauto

/-- C3 counterexample: a placement line whose phrase classifies as a
plain decision keeps win type `"Dec"` even when the line carries a
literal `(SV-1` marker: the regular-path override is absent from the
placement path.  This refutes the claim's "placement matches
included". -/
theorem claim3_counterexample :
    strContains
        "1st Place Match - John Smith (Iowa) won by decision (SV-1 3-1) over Mike Jones (Ohio State)"
        "(SV-1" = true ∧
    ((parse_match_result []
        "1st Place Match - John Smith (Iowa) won by decision (SV-1 3-1) over Mike Jones (Ohio State)"
        none).1).map MatchInfo.winTypeOf = some "Dec" ∧
    ("Dec" : String) ≠ "SV" := by
  refine ⟨by decide, by decide, by decide⟩

/-- C3 (amended): the `(SV-1` / `(TB-1` override holds for every
non-placement (regular) event — any such line containing `(SV-1`
yields win type SuddenVictory regardless of the phrase classifier, and
`(TB-1` (without `(SV-1`) yields TieBreaker; on placement lines the
override does not apply. -/
theorem claim3_sv_tb_override (pw : List String) (t : String) (w : Option String)
    (r : RegularInfo) (h : (parse_match_result pw t w).1 = some (.regular r)) :
    (strContains t "(SV-1" = true → r.win_type = "SV") ∧
    (strContains t "(SV-1" = false → strContains t "(TB-1" = true → r.win_type = "TB") := by
  rw [parse_fst] at h
  by_cases hd : (reSearch placement_pattern t).isSome
  · rw [if_pos hd] at h
    obtain ⟨p, hp, _⟩ := placement_shape t w _ h
    exact MatchInfo.noConfusion hp
  · rw [if_neg hd] at h
    obtain ⟨q, hq, _, _, hsv, htb⟩ := regular_shape t w _ h
    obtain rfl : q = r := by injection hq with h'; exact h'.symm
    exact ⟨hsv, htb⟩

/-- Witness for the amended C3 at the concrete line `lineD`. -/
theorem claim3_witness :
    strContains lineD "(SV-1" = true ∧ (infoD.asRegular).win_type = "SV" := by
  have h : (parse_match_result [] lineD none).1 = some (.regular infoD.asRegular) := by
    rw [show MatchInfo.regular infoD.asRegular = infoD from rfl]
    exact (Option.some_get (by decide)).symm
  exact ⟨by decide, (claim3_sv_tb_override [] lineD none infoD.asRegular h).1 (by decide)⟩

/-- When the placement-detection pattern misses, the primary pattern
misses, and the backup pattern hits, the parse is the common tail
applied to the backup pattern's captures with the default phrase
`"decision"`. -/
theorem backup_fst (pw : List String) (t : String) (w : Option String) (g : Groups)
    (h0 : (reSearch placement_pattern t).isSome = false)
    (h1 : reSearch pattern t = none)
    (hg : reSearch backup_pattern t = some g) :
    (parse_match_result pw t w).1 =
      (_regular_build t w [.debug ("Parsed with backup pattern: " ++ t)]
        (grp g 1) (grp g 2) (pyStrip (grp g 3)) (pyStrip (grp g 4))
        "decision" (pyStrip (grp g 6)) (pyStrip (grp g 7))).1 := by
  rw [parse_fst, h0]
  simp only [Bool.false_eq_true, if_false, _parse_regular_match, h1, hg]

/-- C5: on a non-placement line where the primary pattern fails but the
permissive backup matches, `parse_match_result` still returns a regular
event; its win type defaults to Decision (the backup pattern captures
no win phrase — only the documented `(SV-1`/`(TB-1` override can
change it), and the use of the fallback is recorded as a diagnostic. -/
theorem claim5_backup_fallback (pw : List String) (t : String) (w : Option String)
    (h0 : (reSearch placement_pattern t).isSome = false)
    (h1 : reSearch pattern t = none)
    (h2 : (reSearch backup_pattern t).isSome = true) :
    (∃ r : RegularInfo, (parse_match_result pw t w).1 = some (.regular r) ∧
      r.win_type = (if strContains t "(SV-1" then "SV"
        else if strContains t "(TB-1" then "TB" else "Dec") ∧
      r.win_type_full = (if strContains t "(SV-1" then "sudden victory"
        else if strContains t "(TB-1" then "tie breaker" else "decision")) ∧
    LogEntry.debug ("Parsed with backup pattern: " ++ t) ∈ (parse_match_result pw t w).2 := by
  obtain ⟨g, hg⟩ := Option.isSome_iff_exists.mp h2
  have hfst := backup_fst pw t w g h0 h1 hg
  obtain ⟨info, hi⟩ :=
    build_is_some t w [.debug ("Parsed with backup pattern: " ++ t)]
      (grp g 1) (grp g 2) (pyStrip (grp g 3)) (pyStrip (grp g 4))
      "decision" (pyStrip (grp g 6)) (pyStrip (grp g 7))
  obtain ⟨r, rfl, _, _, _, _, hwt, hwtf⟩ :=
    build_shape t w _ _ _ _ _ "decision" _ _ info hi
  constructor
  · refine ⟨r, hfst.trans hi, ?_, hwtf⟩
    rw [win_type_decision t] at hwt
    exact hwt
  · apply parse_logs_mem
    rw [h0]
    simp only [Bool.false_eq_true, if_false]
    simp [_parse_regular_match, h1, hg, _regular_build]
/-- Witness for C5 at the concrete line `lineB5`. -/
theorem claim5_witness :
    (∃ r : RegularInfo, (parse_match_result [] lineB5 none).1 = some (.regular r) ∧
      r.win_type = (if strContains lineB5 "(SV-1" then "SV"
        else if strContains lineB5 "(TB-1" then "TB" else "Dec") ∧
      r.win_type_full = (if strContains lineB5 "(SV-1" then "sudden victory"
        else if strContains lineB5 "(TB-1" then "tie breaker" else "decision")) ∧
    LogEntry.debug ("Parsed with backup pattern: " ++ lineB5) ∈ (parse_match_result [] lineB5 none).2 :=
  claim5_backup_fallback [] lineB5 none (by decide) (by decide) (by decide)

/-- C6: `parse_match_result` always returns either a parsed dictionary
or `None`; when it returns `None` (neither grammar matched), a failure
diagnostic is recorded so the caller can skip the line and continue. -/
theorem claim6_total_or_diagnostic (pw : List String) (t : String) (w : Option String) :
    (∃ info, (parse_match_result pw t w).1 = some info) ∨
    ((parse_match_result pw t w).1 = none ∧
      (LogEntry.debug ("Failed to parse placement match: " ++ t) ∈ (parse_match_result pw t w).2 ∨
       LogEntry.debug ("Failed to parse with all patterns: " ++ t) ∈ (parse_match_result pw t w).2)) := by
  cases hd : (reSearch placement_pattern t).isSome with
  | true =>
    cases hm : reSearch placement_pattern_full t with
    | some m =>
      left
      obtain ⟨info, hi⟩ := placement_is_some t w m hm
      exact ⟨info, by rw [parse_fst, hd, if_pos rfl]; exact hi⟩
    | none =>
      right
      constructor
      · rw [parse_fst, hd, if_pos rfl]
        simp [_parse_placement_match, hm]
      · left
        apply parse_logs_mem
        rw [hd]
        simp [_parse_placement_match, hm]
  | false =>
    cases hm : reSearch pattern t with
    | some m =>
      left
      have hfst : (parse_match_result pw t w).1 =
          (_regular_build t w []
            (grp m 1) (grp m 2) (pyStrip (grp m 3)) (pyStrip (grp m 4))
            (pyStrip (grp m 7)) (pyStrip (grp m 8)) (pyStrip (grp m 9))).1 := by
        rw [parse_fst, hd]
        simp only [Bool.false_eq_true, if_false, _parse_regular_match, hm]
      obtain ⟨info, hi⟩ :=
        build_is_some t w [] (grp m 1) (grp m 2) (pyStrip (grp m 3)) (pyStrip (grp m 4))
          (pyStrip (grp m 7)) (pyStrip (grp m 8)) (pyStrip (grp m 9))
      exact ⟨info, hfst.trans hi⟩
    | none =>
      cases hb : reSearch backup_pattern t with
      | some g =>
        left
        have hfst := backup_fst pw t w g hd hm hb
        obtain ⟨info, hi⟩ :=
          build_is_some t w [.debug ("Parsed with backup pattern: " ++ t)]
            (grp g 1) (grp g 2) (pyStrip (grp g 3)) (pyStrip (grp g 4))
            "decision" (pyStrip (grp g 6)) (pyStrip (grp g 7))
        exact ⟨info, hfst.trans hi⟩
      | none =>
        right
        constructor
        · rw [parse_fst, hd]
          simp [Bool.false_eq_true, if_false, _parse_regular_match, hm, hb]
        · right
          apply parse_logs_mem
          rw [hd]
          simp [_parse_regular_match, hm, hb]

/-- C8: on a non-placement line parsed only through the backup pattern,
the event's bonus points are 0.0 and its total equals its advancement
points — the fallback discards all bonus information, whatever win
method the line described. -/
theorem claim8_backup_discards_bonus (pw : List String) (t : String) (w : Option String)
    (h0 : (reSearch placement_pattern t).isSome = false)
    (h1 : reSearch pattern t = none)
    (h2 : (reSearch backup_pattern t).isSome = true) :
    ∃ r : RegularInfo, (parse_match_result pw t w).1 = some (.regular r) ∧
      r.bonus_points = 0 ∧ r.total_points = r.advancement_points := by
  obtain ⟨g, hg⟩ := Option.isSome_iff_exists.mp h2
  have hfst := backup_fst pw t w g h0 h1 hg
  obtain ⟨info, hi⟩ :=
    build_is_some t w [.debug ("Parsed with backup pattern: " ++ t)]
      (grp g 1) (grp g 2) (pyStrip (grp g 3)) (pyStrip (grp g 4))
      "decision" (pyStrip (grp g 6)) (pyStrip (grp g 7))
  obtain ⟨r, rfl, _, hbonus, htot, _, _, _⟩ :=
    build_shape t w _ _ _ _ _ "decision" _ _ info hi
  rw [win_type_decision t] at hbonus
  have hb : r.bonus_points = 0 := hbonus
  rw [hb, add_zero] at htot
  exact ⟨r, hfst.trans hi, hb, htot⟩
/-- Witness for C8 at the concrete line `lineB8`. -/
theorem claim8_witness :
    strContains lineB8 "fall" = true ∧
    ∃ r : RegularInfo, (parse_match_result [] lineB8 none).1 = some (.regular r) ∧
      r.bonus_points = 0 ∧ r.total_points = r.advancement_points :=
  ⟨by decide, claim8_backup_discards_bonus [] lineB8 none (by decide) (by decide) (by decide)⟩

/-- C9: a line carrying an ordinal followed by " Place Match" is parsed
exclusively by the placement grammar: the result is whatever the
placement parser yields, and when the full placement pattern fails the
result is `None` — no regular or backup pattern is consulted. -/
theorem claim9_placement_exclusive (pw : List String) (t : String) (w : Option String)
    (h : (reSearch placement_pattern t).isSome = true) :
    (parse_match_result pw t w).1 = (_parse_placement_match t w).1 ∧
    (reSearch placement_pattern_full t = none → (parse_match_result pw t w).1 = none) := by
  have h1 : (parse_match_result pw t w).1 = (_parse_placement_match t w).1 := by
    rw [parse_fst, h, if_pos rfl]
  refine ⟨h1, fun hm => ?_⟩
  rw [h1]
  simp [_parse_placement_match, hm]
/-- Witness for C9 at the concrete line `lineE`: the regular pattern
matches the line, yet the result is a parse failure because only the
placement grammar is tried. -/
theorem claim9_witness :
    (reSearch pattern lineE).isSome = true ∧ (parse_match_result [] lineE none).1 = none :=
  ⟨by decide, (claim9_placement_exclusive [] lineE none (by decide)).2 (by decide)⟩

/-- A pattern absent from a string is not at its front either. -/
theorem starts_false_of_contains_false (s p : String) (h : strContains s p = false) :
    strStarts s p = false := by
  cases hs : strStarts s p
  · rfl
  · exact absurd (strStarts_imp_contains s p hs) (by simp [h])

/-- C10 counterexample: the phrase `"Tech fall"` differs from the table
entry `"tech fall"` only in letter case, yet the classifier returns
`("Fall", 2.0)` — not Other with bonus 0.0 — because the untouched
substring `"fall"` still matches case-sensitively.  This refutes the
claim as stated. -/
theorem claim10_counterexample :
    pyLower "Tech fall" = "tech fall" ∧ ("Tech fall" : String) ≠ "tech fall" ∧
    ("tech fall" : String) ∈ tableEntries ∧
    _parse_win_type "Tech fall" "Tech fall" = ("Fall", 2) ∧
    (("Fall", (2 : ℚ)) : String × ℚ) ≠ ("Other", 0) := by
  refine ⟨by decide, by decide, by decide, ?_, ?_⟩
  · have c1 : strContains "Tech fall" "tech fall" = false := by decide
    have c2 : strContains "Tech fall" "major decision" = false := by decide
    have c3 : strContains "Tech fall" "fall" = true := by decide
    simp [_parse_win_type, c1, c2, c3]
  · intro h
    exact absurd (congrArg Prod.fst h) (by decide)

/-- C10 (amended): the classifier's substring tests are case-sensitive,
so a phrase that differs only in letter case from a table entry falls
through the whole table — provided no table entry survives within it as
an exact lowercase substring — and, when the line also carries none of
the rescan markers, the result is Other with bonus 0.0. -/
theorem claim10_case_sensitive (phrase line : String)
    (hcase : pyLower phrase ∈ tableEntries)
    (hdiff : phrase ≠ pyLower phrase)
    (hnone : ∀ e ∈ tableEntries, strContains phrase e = false)
    (hline : noMarkers line = true) :
    _parse_win_type phrase line = ("Other", 0) := by
  have e1 := hnone "tech fall" (by decide)
  have e2 := hnone "major decision" (by decide)
  have e3 := hnone "fall" (by decide)
  have e4 := hnone "pin" (by decide)
  have e5 := hnone "default" (by decide)
  have e6 := hnone "forfeit" (by decide)
  have e7 := hnone "disqualification" (by decide)
  have e8 := hnone "misconduct" (by decide)
  have e9 := hnone "sudden victory" (by decide)
  have e10 := hnone "tie breaker" (by decide)
  have e11 := hnone "decision" (by decide)
  have s1 := starts_false_of_contains_false phrase "sudden victory" e9
  have s2 := starts_false_of_contains_false phrase "tie breaker" e10
  simp only [noMarkers, Bool.and_eq_true, Bool.not_eq_true'] at hline
  obtain ⟨⟨⟨⟨⟨⟨⟨m1, m2⟩, m3⟩, m4⟩, m5⟩, m6⟩, m7⟩, m8⟩ := hline
  simp [_parse_win_type, e1, e2, e3, e4, e5, e6, e7, e8, e9, e10, e11,
    s1, s2, m1, m2, m3, m4, m5, m6, m7, m8]
/-- Witness for the amended C10 at the concrete phrase `"Fall"`. -/
theorem claim10_witness :
    pyLower "Fall" ∈ tableEntries ∧ ("Fall" : String) ≠ pyLower "Fall" ∧
    _parse_win_type "Fall" "x" = ("Other", 0) :=
  ⟨by decide, by decide,
    claim10_case_sensitive "Fall" "x" (by decide) (by decide) (by decide) (by decide)⟩

end NCAA
